import Mathlib

/-!
Verification development for the result-aggregation and limit-evaluation
engine of a QC trend-monitoring dashboard (`imageQC_dash.py`).

The Python source is shallowly embedded: pandas DataFrames become lists of
rows of `Cell`, Python floats become `PyFloat` (a rational or NaN), Python
exceptions become `Except String`, Python dicts (insertion-ordered, unique
string keys) become association lists.  Purely presentational attributes of
plotly traces (line colors, marker sizes, legend flags) are not modelled;
the data content of each trace (x/y pairs, threshold values, label texts,
anchor strings, axis-range settings) is.

Python float literals such as `0.01` are embedded as the exact rationals
they denote in the source text; at every concrete input appearing in a
claim the double-precision computation and the rational computation agree
(checked by hand for the `relative_median` example, where the rounding of
`10 * 0.01 * 20` yields exactly `2.0`).
-/

set_option autoImplicit false

/-- Embeds a Python float: either NaN or an exact value (rationals stand in
for doubles; see the header note). -/
inductive PyFloat where
  | nan
  | val (q : ℚ)
deriving DecidableEq, Repr

/-- Python `a * b` on floats: NaN is absorbing. -/
def pyMul : PyFloat → PyFloat → PyFloat
  | .val a, .val b => .val (a * b)
  | _, _ => .nan

/-- Python `a - b` on floats: NaN is absorbing. -/
def pySub : PyFloat → PyFloat → PyFloat
  | .val a, .val b => .val (a - b)
  | _, _ => .nan

/-- Python `a + b` on floats: NaN is absorbing. -/
def pyAdd : PyFloat → PyFloat → PyFloat
  | .val a, .val b => .val (a + b)
  | _, _ => .nan

/-- Python `a < b` on floats: any comparison with NaN is `False`. -/
def pyLt : PyFloat → PyFloat → Bool
  | .val a, .val b => a < b
  | _, _ => false

/-- Python `a > b` on floats: any comparison with NaN is `False`. -/
def pyGt : PyFloat → PyFloat → Bool
  | .val a, .val b => b < a
  | _, _ => false

/-- One cell of a parsed result table.  `naT` is a missing value in the
date column, `flo .nan` a missing value in a numeric column, `str` an
unparseable cell that pandas leaves as text, `date` a parsed day-first
date encoded as the ordinal `y*10000 + m*100 + d` (monotone in calendar
order; calendar-day arithmetic is abstracted to ordinal differences, which
no claim depends on). -/
inductive Cell where
  | naT
  | date (d : Nat)
  | flo (f : PyFloat)
  | str (s : String)
deriving DecidableEq, Repr

/-- Whether a cell counts as absent for `DataFrame.dropna` (NaN / NaT). -/
def isNa : Cell → Bool
  | .naT => true
  | .flo .nan => true
  | _ => false

/-- Rank used to order cells of distinct kinds when sorting the date
column; `naT` sorts last as pandas sorts NaT last.  Mixed-kind date columns
are degenerate inputs no claim exercises. -/
def cellRank : Cell → Nat
  | .date _ => 0
  | .flo (.val _) => 1
  | .flo .nan => 2
  | .str _ => 3
  | .naT => 4

/-- Comparison used to sort rows by their date cell. -/
def cellLe (a b : Cell) : Bool :=
  match a, b with
  | .date x, .date y => x ≤ y
  | .flo (.val x), .flo (.val y) => x ≤ y
  | .str _, .str _ => true
  | _, _ => cellRank a ≤ cellRank b

/-- Insert into a list sorted by `le` (helper for the embedded sort). -/
def insertLe {α : Type} (le : α → α → Bool) (x : α) : List α → List α
  | [] => [x]
  | y :: ys => if le x y then x :: y :: ys else y :: insertLe le x ys

/-- Insertion sort by `le`.  Embeds `DataFrame.sort_values`; pandas'
default quicksort is unstable, so only the sorted multiset is meaningful,
which is all any claim uses. -/
def sortLe {α : Type} (le : α → α → Bool) : List α → List α
  | [] => []
  | x :: xs => insertLe le x (sortLe le xs)

theorem mem_insertLe {α : Type} (le : α → α → Bool) (x a : α) (l : List α) :
    a ∈ insertLe le x l ↔ a = x ∨ a ∈ l := by
  induction l with
  | nil => simp [insertLe]
  | cons y ys ih =>
    simp only [insertLe]
    split
    · simp
    · simp only [List.mem_cons, ih]
      tauto

theorem mem_sortLe {α : Type} (le : α → α → Bool) (a : α) (l : List α) :
    a ∈ sortLe le l ↔ a ∈ l := by
  induction l with
  | nil => simp [sortLe]
  | cons x xs ih => simp [sortLe, mem_insertLe, ih]

/-- Index of the first occurrence of `a` (embeds Python's `list.index`,
which raises `ValueError` when absent — callers turn `none` into that). -/
def idxOf? {α : Type} [DecidableEq α] (a : α) : List α → Option Nat
  | [] => none
  | x :: xs => if x = a then some 0 else (idxOf? a xs).map (· + 1)

theorem idxOf?_eq_none {α : Type} [DecidableEq α] (a : α) (l : List α) :
    a ∉ l → idxOf? a l = none := by
  induction l with
  | nil => intro _; rfl
  | cons x xs ih =>
    intro h
    simp only [List.mem_cons, not_or] at h
    simp [idxOf?, Ne.symm h.1, ih h.2]

/-- Parse a nonnegative decimal number with the given decimal-mark
character into an exact rational.  Simplified numeric grammar (no
exponents, no leading/trailing-dot forms); the producing tool writes plain
decimal numbers. -/
def parseNumQ? (deci : Char) (s : String) : Option ℚ :=
  let neg := s.startsWith "-"
  let body := if neg then s.drop 1 else s
  match body.splitOn (String.singleton deci) with
  | [ip] => ip.toNat?.map (fun n => if neg then -(n : ℚ) else (n : ℚ))
  | [ip, fp] =>
    match ip.toNat?, fp.toNat? with
    | some i, some f =>
      let q : ℚ := (i : ℚ) + (f : ℚ) / ((10 : ℚ) ^ fp.length)
      some (if neg then -q else q)
    | _, _ => none
  | _ => none

/-- Parse a numeric cell: empty → NaN, number → value, anything else is
left as text (pandas keeps unparseable cells as strings in an object
column). -/
def parseNum (deci : Char) (s : String) : Cell :=
  if s = "" then .flo .nan
  else
    match parseNumQ? deci s with
    | some q => .flo (.val q)
    | none => .str s

/-- Parse a date cell written day-first as `d.m.yyyy` (the format the
producing tool writes): empty → NaT, parseable → ordinal-encoded date,
anything else left as text. -/
def parseDate (s : String) : Cell :=
  if s = "" then .naT
  else
    match s.splitOn "." with
    | [ds, ms, ys] =>
      match ds.toNat?, ms.toNat?, ys.toNat? with
      | some d, some m, some y => .date (y * 10000 + m * 100 + d)
      | _, _, _ => .str s
    | _ => .str s

/-- A parsed result table: column names (column 0 is the date column) and
rows of cells. -/
structure DataFrame where
  columns : List String
  rows : List (List Cell)
deriving DecidableEq, Repr

/-- Parse one raw row to `width` cells: column 0 as a date, the rest as
numbers; short rows are NaN-padded (pandas pads missing trailing fields). -/
def parseRow (deci : Char) (width : Nat) (fields : List String) : List Cell :=
  (List.range width).map (fun j =>
    if j = 0 then parseDate (fields.getD 0 "")
    else parseNum deci (fields.getD j ""))

/-- The failure modes of `pd.read_csv` the source distinguishes. -/
inductive PErr where
  | emptyData
  | parserError
deriving DecidableEq, Repr

/-- Embeds `pd.read_csv(sep='\t', decimal=deci, parse_dates=[0],
dayfirst=True, on_bad_lines='error')` on a tab-tokenized file (each line
already split into its fields).  With no `usecols`, a data row with more
fields than the header raises `ParserError`; with `usecols=range(n)` only
the first `n` columns are used and extra fields are ignored, while `n`
exceeding the header width fails (caught by the fallback's blanket
`except`).  An empty file raises `EmptyDataError`. -/
def pandasParse (lines : List (List String)) (usecols : Option Nat) (deci : Char) :
    Except PErr DataFrame :=
  match lines with
  | [] => .error .emptyData
  | header :: dataRows =>
    match usecols with
    | none =>
      if dataRows.any (fun r => header.length < r.length) then .error .parserError
      else .ok ⟨header, dataRows.map (parseRow deci header.length)⟩
    | some n =>
      if header.length < n then .error .parserError
      else .ok ⟨header.take n, dataRows.map (parseRow deci n)⟩

/-- The three states of a source file as seen by `read_csv`: missing
(`FileNotFoundError`), unreadable (`OSError`), or readable tab-tokenized
content. -/
inductive FileInput where
  | missing
  | ioError
  | content (lines : List (List String))

/-- Embeds `read_csv(path, decimal_mark)` (imageQC_dash.py lines 51-99).
Every exception the body can see is caught (`FileNotFoundError`, `OSError`,
`EmptyDataError`, `ParserError`, and a blanket `except Exception` around
the fallback retry), so the embedding is a total function — no fault
propagates to the caller.  The fallback re-reads the first line's field
count and retries restricted to that many columns. -/
def readCsv (f : FileInput) (deci : Char) : Bool × Option DataFrame :=
  match f with
  | .missing => (false, none)
  | .ioError => (false, none)
  | .content lines =>
    match pandasParse lines none deci with
    | .ok df => (decide (1 < df.rows.length), some df)
    | .error .emptyData => (false, none)
    | .error .parserError =>
      match lines.head? with
      | none => (false, none)
      | some first =>
        let n := first.length
        if 0 < n then
          match pandasParse lines (some n) deci with
          | .ok df => (decide (1 < df.rows.length), some df)
          | .error _ => (false, none)
        else (false, none)

/-- C4 — For every decimal mark, when the source file is missing, empty,
or an I/O failure occurs, `read_csv` returns `success = false` (and no
table); it propagates no raised fault, which the embedding reflects by
`readCsv` being a total function (every exception in the body is caught by
one of its handlers). -/
theorem C4_read_csv_failure_is_soft (deci : Char) (f : FileInput)
    (h : f = FileInput.missing ∨ f = FileInput.ioError ∨ f = FileInput.content []) :
    readCsv f deci = (false, none) := by
  rcases h with h | h | h <;> subst h <;> rfl

theorem C4_witness :
    (FileInput.missing = FileInput.missing ∨ FileInput.missing = FileInput.ioError ∨
      FileInput.missing = FileInput.content []) ∧
    readCsv FileInput.missing '.' = (false, none) :=
  ⟨Or.inl rfl, C4_read_csv_failure_is_soft '.' FileInput.missing (Or.inl rfl)⟩

/-- C8 — A file consisting of a header line and exactly one data row never
yields `success = true`: whichever parse branch runs, the resulting table
has a single row and success requires strictly more than one. -/
theorem C8_single_row_rejected (deci : Char) (header row : List String) :
    (readCsv (FileInput.content [header, row]) deci).1 = false := by
  simp only [readCsv, pandasParse]
  by_cases h : header.length < row.length
  · simp only [List.any_cons, List.any_nil, h]
    simp only [List.head?]
    by_cases h0 : 0 < header.length
    · simp [h0, lt_irrefl]
    · simp [h0]
  · simp [h]

theorem C8_witness :
    (readCsv (FileInput.content [["d", "v"], ["1.1.2024", "7"]]) '.').1 = false :=
  C8_single_row_rejected '.' ["d", "v"] ["1.1.2024", "7"]

/-- C9 — For a well-formed file (every data row has exactly the header's
field count), the strict parse and the fallback parse restricted to the
first line's field count return identical outcomes: the same table, hence
the same success flag.  The result does not depend on whether the fallback
path is exercised. -/
theorem C9_fallback_idempotent (deci : Char) (header : List String)
    (dataRows : List (List String))
    (h : ∀ r ∈ dataRows, r.length = header.length) :
    pandasParse (header :: dataRows) none deci
      = pandasParse (header :: dataRows) (some header.length) deci ∧
    (pandasParse (header :: dataRows) none deci).toOption.map
        (fun df => decide (1 < df.rows.length))
      = (pandasParse (header :: dataRows) (some header.length) deci).toOption.map
        (fun df => decide (1 < df.rows.length)) := by
  have hany : dataRows.any (fun r => header.length < r.length) = false := by
    simp only [List.any_eq_false]
    intro r hr
    simp [h r hr]
  constructor
  · simp [pandasParse, hany, List.take_length]
  · simp [pandasParse, hany, List.take_length]

theorem C9_witness :
    ((∀ r ∈ [["1.1.2024", "5"], ["2.1.2024", "6"]], r.length = ["d", "v"].length) ∧
      pandasParse [["d", "v"], ["1.1.2024", "5"], ["2.1.2024", "6"]] none ','
        = pandasParse [["d", "v"], ["1.1.2024", "5"], ["2.1.2024", "6"]] (some 2) ',') :=
  ⟨by decide,
    (C9_fallback_idempotent ',' ["d", "v"] [["1.1.2024", "5"], ["2.1.2024", "6"]]
      (by decide)).1⟩

/-- One entry of a `groups_limits` pair as it comes out of YAML: absent
(`None`), a number, or a literal tag string. -/
inductive LimEntry where
  | non
  | num (q : ℚ)
  | str (s : String)
deriving DecidableEq, Repr

/-- Python truthiness of a `groups_limits` entry (`None` and `0` and `''`
are falsy). -/
def limTruthy : LimEntry → Bool
  | .non => false
  | .num q => q ≠ 0
  | .str s => s ≠ ""

/-- Python `any(...)` over the two entries of a `groups_limits` pair. -/
def anyTruthy (p : LimEntry × LimEntry) : Bool :=
  limTruthy p.1 || limTruthy p.2

/-- A `limits_and_plot_template` record: the per-template grouping and
threshold configuration dict.  Optional fields model dict keys that may be
absent. -/
structure LimPlot where
  label : String
  groups : List (List String)
  groups_hide : Option (List Bool)
  groups_limits : Option (List (LimEntry × LimEntry))
  groups_ranges : Option (List (Option ℚ × Option ℚ))
  groups_title : Option (List String)
deriving DecidableEq, Repr

/-- The synthesized default spec (imageQC_dash.py lines 209-211): one
single-channel group per data column after the date column, and no other
keys; the dict literal has no `label` key, embedded as the empty label. -/
def defaultSpec (df : DataFrame) : LimPlot :=
  ⟨"", (df.columns.drop 1).map (fun c => [c]), none, none, none, none⟩

/-- Embeds the Python `autorange` value handed to plotly: `True`, `False`,
`"min"` or `"max"`.  Plotly semantics: `"max"` autoranges the maximum while
the minimum stays pinned at `range[0]` (autorange anchored at the minimum);
`"min"` autoranges the minimum while the maximum stays pinned at `range[1]`
(autorange anchored at the maximum). -/
inductive AutoRange where
  | tru
  | fls
  | min
  | max
deriving DecidableEq, Repr

/-- Embeds the axis-range policy (imageQC_dash.py lines 470-484): the
`(set_range, autorange)` pair passed to `fig.update_yaxes`.  A
`groups_ranges` list shorter than the group index is an uncaught
`IndexError`. -/
def axisRange (lp : LimPlot) (i : Nat) : Except String ((Option ℚ × Option ℚ) × AutoRange) :=
  match lp.groups_ranges with
  | none => .ok ((none, none), .tru)
  | some rs =>
    match rs.get? i with
    | none => .error "IndexError: groups_ranges"
    | some (lo, hi) =>
      match lo, hi with
      | none, none => .ok ((none, none), .tru)
      | some l, some h => .ok ((some l, some h), .fls)
      | none, some h => .ok ((none, some h), .min)
      | some l, none => .ok ((some l, none), .max)

/-- Column lookup `data[header]` by name; a missing name is an uncaught
`KeyError`.  Rows are rectangular for parser-built frames; the NaN default
only pads hand-built ragged rows. -/
def dfCol? (data : DataFrame) (header : String) : Except String (List Cell) :=
  match idxOf? header data.columns with
  | none => .error "KeyError: column"
  | some j => .ok (data.rows.map (fun r => r.getD j (Cell.flo .nan)))

/-- One main-series trace for a channel: the `(x, y)` pairs of
`go.Scatter(x=data[data.columns[0]], y=data[header])`.  Color, marker and
legend attributes are presentational and not modelled. -/
def mkTrace (data : DataFrame) (header : String) :
    Except String (String × List (Cell × Cell)) :=
  match data.columns.head? with
  | none => .error "IndexError: columns"
  | some xname =>
    match dfCol? data xname with
    | .error e => .error e
    | .ok xs =>
      match dfCol? data header with
      | .error e => .error e
      | .ok ys => .ok (header, xs.zip ys)

/-- The main-series traces of a group, one per channel, in group order. -/
def seriesOf (data : DataFrame) : List String → Except String (List (String × List (Cell × Cell)))
  | [] => .ok []
  | h :: rest =>
    match mkTrace data h with
    | .error e => .error e
    | .ok t =>
      match seriesOf data rest with
      | .error e => .error e
      | .ok ts => .ok (t :: ts)

/-- The pandas filter `data[data[header] < lim]` keeps a row iff its cell
compares below the bound; NaN comparisons are false so NaN samples are
never flagged. -/
def cellBelow (c : Cell) (lim : PyFloat) : Bool :=
  match c with
  | .flo f => pyLt f lim
  | _ => false

/-- The pandas filter `data[data[header] > lim]`. -/
def cellAbove (c : Cell) (lim : PyFloat) : Bool :=
  match c with
  | .flo f => pyGt f lim
  | _ => false

/-- The `(x, y)` pairs of the out-of-limit marker trace for one channel and
one bound (`limno = 0` is the lower bound, `limno = 1` the upper). -/
def mkOffTrace (data : DataFrame) (header : String) (limno : Nat) (lim : PyFloat) :
    Except String (List (Cell × Cell)) :=
  match data.columns.head? with
  | none => .error "IndexError: columns"
  | some xname =>
    match dfCol? data xname with
    | .error e => .error e
    | .ok xs =>
      match dfCol? data header with
      | .error e => .error e
      | .ok ys =>
        .ok ((xs.zip ys).filter (fun p =>
          if limno = 0 then cellBelow p.2 lim else cellAbove p.2 lim))

/-- The out-of-limit traces for one bound over every channel of the group
(imageQC_dash.py lines 453-469); a trace is added only when nonempty. -/
def outlierTraces (data : DataFrame) (limno : Nat) (lim : PyFloat) :
    List String → Except String (List (String × List (Cell × Cell)))
  | [] => .ok []
  | h :: rest =>
    match mkOffTrace data h limno lim with
    | .error e => .error e
    | .ok pts =>
      match outlierTraces data limno lim rest with
      | .error e => .error e
      | .ok ts => .ok (if pts.isEmpty then ts else (h, pts) :: ts)

/-- `np.median`: NaN if the sample list is empty or contains NaN, else the
middle value (or the mean of the two middle values) of the sorted list. -/
def npMedian (l : List PyFloat) : PyFloat :=
  if l.isEmpty then .nan
  else if l.any (fun f => f = PyFloat.nan) then .nan
  else
    let qs := sortLe (fun a b : ℚ => a ≤ b)
      (l.filterMap (fun f => match f with | .val q => some q | .nan => none))
    let n := qs.length
    if n % 2 = 1 then .val (qs.getD (n / 2) 0)
    else .val ((qs.getD (n / 2 - 1) 0 + qs.getD (n / 2) 0) / 2)

/-- Renders a rational the way Python renders the YAML numbers the claims
use (integers print without a fractional part; label texts are not
exercised by any claim beyond these). -/
def fmtQ (q : ℚ) : String :=
  if q.den = 1 then toString q.num
  else toString q.num ++ "/" ++ toString q.den

/-- Renders a `groups_limits` entry inside the `min .. / max ..` labels
(Python formats `None` as the text `None`). -/
def fmtEntry : LimEntry → String
  | .non => "None"
  | .num q => fmtQ q
  | .str s => s

/-- A numeric cell as a Python float; arithmetic on a date or text cell is
an uncaught `TypeError`. -/
def cellToFloat : Cell → Except String PyFloat
  | .flo f => .ok f
  | _ => .error "TypeError: non-numeric cell"

/-- The percentage entry of a relative limit tag; arithmetic on `None` or a
string there is an uncaught `TypeError`. -/
def relPct : LimEntry → Except String ℚ
  | .num q => .ok q
  | _ => .error "TypeError: percentage"

/-- A fixed bound used directly as a threshold value; a string there makes
plotly's `add_hline` fail, modelled as the same fatal error. -/
def entryToLim : LimEntry → Except String (Option PyFloat)
  | .non => .ok none
  | .num q => .ok (some (.val q))
  | .str _ => .error "TypeError: str limit"

/-- Embeds the threshold resolution (imageQC_dash.py lines 425-441):
produces the resolved `(lims, lim_text)` pair.  `lastHeader?` is the loop
variable `header` left over from the series loop — the last channel of the
group; using it with an empty group is the uncaught `NameError` of the
source.  Any tag other than `text` / `relative_first` is treated as
`relative_median`, as in the source's final `else`. -/
def computeLims (data : DataFrame) (lastHeader? : Option String)
    (l : LimEntry × LimEntry) :
    Except String ((Option PyFloat × Option PyFloat) × (Option String × Option String)) :=
  match l.1 with
  | .str s =>
    if s = "text" then .ok ((none, none), (none, none))
    else if s = "relative_first" then
      match lastHeader? with
      | none => .error "NameError: header"
      | some h =>
        match dfCol? data h with
        | .error e => .error e
        | .ok col =>
          match col.head? with
          | none => .error "KeyError: row 0"
          | some c0 =>
            match cellToFloat c0 with
            | .error e => .error e
            | .ok first =>
              match relPct l.2 with
              | .error e => .error e
              | .ok p =>
                let tol := pyMul (pyMul first (.val (1 / 100))) (.val p)
                .ok ((some (pySub first tol), some (pyAdd first tol)),
                     (some ("first +/- " ++ fmtQ p ++ "%"), some ""))
    else
      match lastHeader? with
      | none => .error "NameError: header"
      | some h =>
        match dfCol? data h with
        | .error e => .error e
        | .ok col =>
          match col.dropLast.mapM cellToFloat with
          | .error e => .error e
          | .ok floats =>
            let med := npMedian floats
            match relPct l.2 with
            | .error e => .error e
            | .ok p =>
              let tol := pyMul (pyMul med (.val (1 / 100))) (.val p)
              .ok ((some (pySub med tol), some (pyAdd med tol)),
                   (some ("median +/- " ++ fmtQ p ++ "%"), some ""))
  | _ =>
    match entryToLim l.1 with
    | .error e => .error e
    | .ok lo =>
      match entryToLim l.2 with
      | .error e => .error e
      | .ok hi =>
        .ok ((lo, hi),
             (some ("min " ++ fmtEntry l.1), some ("max " ++ fmtEntry l.2)))

/-- The threshold-line descriptors and out-of-limit traces produced by the
`for limno, lim in enumerate(lims)` loop (imageQC_dash.py lines 442-469):
per present bound, one dotted red line `(value, label text, yanchor)` and
the nonempty out-of-limit traces of every channel of the group. -/
def thresholdsAndOutliers (data : DataFrame) (g : List String)
    (lims : Option PyFloat × Option PyFloat) (ltext : Option String × Option String) :
    Except String (List (PyFloat × Option String × String) × List (String × List (Cell × Cell))) :=
  match (match lims.1 with
         | none => Except.ok ([], [])
         | some lim =>
           match outlierTraces data 0 lim g with
           | .error e => .error e
           | .ok outs => .ok ([(lim, ltext.1, "bottom")], outs)) with
  | .error e => .error e
  | .ok (thr0, out0) =>
    match (match lims.2 with
           | none => Except.ok ([], [])
           | some lim =>
             match outlierTraces data 1 lim g with
             | .error e => .error e
             | .ok outs => .ok ([(lim, ltext.2, "top")], outs)) with
    | .error e => .error e
    | .ok (thr1, out1) => .ok (thr0 ++ thr1, out0 ++ out1)

/-- The threshold block of one group (imageQC_dash.py lines 423-469):
nothing when the `groups_limits` key is absent or the pair is entirely
falsy; a short `groups_limits` list is an uncaught `IndexError`. -/
def limitsOf (data : DataFrame) (lp : LimPlot) (i : Nat) (g : List String) :
    Except String (List (PyFloat × Option String × String) × List (String × List (Cell × Cell))) :=
  match lp.groups_limits with
  | none => .ok ([], [])
  | some gl =>
    match gl.get? i with
    | none => .error "IndexError: groups_limits"
    | some pair =>
      if anyTruthy pair then
        match computeLims data g.getLast? pair with
        | .error e => .error e
        | .ok (lims, ltext) => thresholdsAndOutliers data g lims ltext
      else .ok ([], [])

/-- The plot-ready content of one visible group's figure. -/
structure Bundle where
  series : List (String × List (Cell × Cell))
  thresholds : List (PyFloat × Option String × String)
  outliers : List (String × List (Cell × Cell))
  yrange : Option ℚ × Option ℚ
  autorange : AutoRange
deriving DecidableEq, Repr

/-- One entry of the returned figure list: either the `''` placeholder a
hidden group leaves behind, or a built figure. -/
inductive Fig where
  | placeholder
  | fig (b : Bundle)
deriving DecidableEq, Repr

/-- Processing of one group of `generate_figure_list` (imageQC_dash.py
lines 402-486).  The hide flag comes from `groups_hide[group_idx]` with
only `KeyError` caught (`hide = False` when the key is absent); a short
list is an uncaught `IndexError`.  A hidden group produces the placeholder
without touching data, limits or ranges. -/
def processGroup (data : DataFrame) (lp : LimPlot) (i : Nat) (g : List String) :
    Except String Fig :=
  match (match lp.groups_hide with
         | none => Except.ok false
         | some l =>
           match l.get? i with
           | some b => Except.ok b
           | none => Except.error "IndexError: groups_hide") with
  | .error e => .error e
  | .ok hide =>
    if hide then .ok Fig.placeholder
    else
      match seriesOf data g with
      | .error e => .error e
      | .ok series =>
        match limitsOf data lp i g with
        | .error e => .error e
        | .ok (thr, outs) =>
          match axisRange lp i with
          | .error e => .error e
          | .ok (rng, ar) => .ok (Fig.fig ⟨series, thr, outs, rng, ar⟩)

/-- The indexed loop of `generate_figure_list`: one `Fig` appended per
group, visible or not. -/
def goFigs (data : DataFrame) (lp : LimPlot) : Nat → List (List String) → Except String (List Fig)
  | _, [] => .ok []
  | i, g :: rest =>
    match processGroup data lp i g with
    | .error e => .error e
    | .ok f =>
      match goFigs data lp (i + 1) rest with
      | .error e => .error e
      | .ok fs => .ok (f :: fs)

/-- Embeds `generate_figure_list(data, lim_plots)` (imageQC_dash.py lines
399-487). -/
def generateFigureList (data : DataFrame) (lp : LimPlot) : Except String (List Fig) :=
  goFigs data lp 0 lp.groups

deriving instance DecidableEq for Except

theorem goFigs_length (data : DataFrame) (lp : LimPlot) :
    ∀ (gs : List (List String)) (i : Nat) (fs : List Fig),
      goFigs data lp i gs = .ok fs → fs.length = gs.length := by
  intro gs
  induction gs with
  | nil => intro i fs h; simp only [goFigs] at h; cases h; rfl
  | cons g rest ih =>
    intro i fs h
    simp only [goFigs] at h
    cases hpg : processGroup data lp i g with
    | error e => rw [hpg] at h; cases h
    | ok f =>
      rw [hpg] at h
      cases hrec : goFigs data lp (i + 1) rest with
      | error e => rw [hrec] at h; cases h
      | ok fs' =>
        rw [hrec] at h
        cases h
        simp [ih (i + 1) fs' hrec]

theorem processGroup_hidden (data : DataFrame) (lp : LimPlot) (i : Nat) (g : List String)
    (h : lp.groups_hide.bind (fun l => l.get? i) = some true) :
    processGroup data lp i g = .ok Fig.placeholder := by
  cases hgh : lp.groups_hide with
  | none => rw [hgh] at h; cases h
  | some l =>
    rw [hgh] at h
    simp only [Option.bind] at h
    rw [List.get?_eq_getElem?] at h
    simp [processGroup, hgh, h]

theorem goFigs_placeholder (data : DataFrame) (lp : LimPlot) :
    ∀ (gs : List (List String)) (i j : Nat) (fs : List Fig),
      goFigs data lp i gs = .ok fs → j < gs.length →
      lp.groups_hide.bind (fun l => l.get? (i + j)) = some true →
      fs.get? j = some Fig.placeholder := by
  intro gs
  induction gs with
  | nil => intro i j fs _ hj _; simp at hj
  | cons g rest ih =>
    intro i j fs h hj hh
    simp only [goFigs] at h
    cases hpg : processGroup data lp i g with
    | error e => rw [hpg] at h; cases h
    | ok f =>
      rw [hpg] at h
      cases hrec : goFigs data lp (i + 1) rest with
      | error e => rw [hrec] at h; cases h
      | ok fs' =>
        rw [hrec] at h
        cases h
        cases j with
        | zero =>
          have : processGroup data lp i g = .ok Fig.placeholder :=
            processGroup_hidden data lp i g (by simpa using hh)
          rw [hpg] at this
          cases this
          rfl
        | succ j' =>
          have hj' : j' < rest.length := by simpa using hj
          have hh' : lp.groups_hide.bind (fun l => l.get? ((i + 1) + j')) = some true := by
            have : (i + 1) + j' = i + (j' + 1) := by omega
            rw [this]; exact hh
          simpa using ih (i + 1) j' fs' hrec hj' hh'

/-- C10 — `generate_figure_list` returns one entry per group of the spec
(the length of the returned list equals the number of groups), and a hidden
group occupies its position with the `''` placeholder instead of being
omitted, so positions correspond 1:1 to group indices regardless of hide
flags. -/
theorem C10_figure_list_positions (data : DataFrame) (lp : LimPlot) (figs : List Fig)
    (h : generateFigureList data lp = .ok figs) :
    figs.length = lp.groups.length ∧
    ∀ i, i < lp.groups.length →
      lp.groups_hide.bind (fun l => l.get? i) = some true →
      figs.get? i = some Fig.placeholder := by
  refine ⟨goFigs_length data lp lp.groups 0 figs h, ?_⟩
  intro i hi hh
  exact goFigs_placeholder data lp lp.groups 0 i figs h hi (by simpa using hh)

def dataW10 : DataFrame :=
  ⟨["d", "a", "b"],
   [[Cell.date 1, Cell.flo (.val 1), Cell.flo (.val 2)],
    [Cell.date 2, Cell.flo (.val 3), Cell.flo (.val 4)]]⟩

def lpW10 : LimPlot := ⟨"L", [["a"], ["b"]], some [true, false], none, none, none⟩

def figsW10 : List Fig :=
  [Fig.placeholder,
   Fig.fig ⟨[("b", [(Cell.date 1, Cell.flo (.val 2)), (Cell.date 2, Cell.flo (.val 4))])],
            [], [], (none, none), AutoRange.tru⟩]

theorem C10_witness :
    figsW10.length = lpW10.groups.length ∧
    ∀ i, i < lpW10.groups.length →
      lpW10.groups_hide.bind (fun l => l.get? i) = some true →
      figsW10.get? i = some Fig.placeholder :=
  C10_figure_list_positions dataW10 lpW10 figsW10 rfl

def dataC2 : DataFrame :=
  ⟨["d", "a"], [[Cell.date 1, Cell.flo (.val 1)], [Cell.date 2, Cell.flo (.val 2)]]⟩

def lpC2 : LimPlot := ⟨"L", [["a"]], some [true], none, none, none⟩

/-- C2 counterexample — for a spec whose only group is hidden, the returned
ordered list is not empty: the hidden group does contribute an entry, the
`''` placeholder, so "not even an empty placeholder entry" fails on the
code. -/
theorem C2_counterexample :
    generateFigureList dataC2 lpC2 = .ok [Fig.placeholder] ∧
    [Fig.placeholder].length = 1 := ⟨rfl, rfl⟩

/-- C2 (amended) — for every group index with `groups_hide[i] == true`, the
output contains no series, thresholds or axis range for group `i` (the
entry is the bare placeholder, which carries no plot data), but the group
does contribute that `''` placeholder entry at its position in the returned
ordered list. -/
theorem C2_hidden_group_skipped (data : DataFrame) (lp : LimPlot) (figs : List Fig) (i : Nat)
    (h : generateFigureList data lp = .ok figs)
    (hi : i < lp.groups.length)
    (hh : lp.groups_hide.bind (fun l => l.get? i) = some true) :
    figs.get? i = some Fig.placeholder ∧ ∀ b, figs.get? i ≠ some (Fig.fig b) := by
  have hp := goFigs_placeholder data lp lp.groups 0 i figs h hi (by simpa using hh)
  refine ⟨hp, ?_⟩
  intro b hb
  rw [hp] at hb
  cases hb

theorem C2_witness :
    [Fig.placeholder].get? 0 = some Fig.placeholder ∧
    ∀ b, [Fig.placeholder].get? 0 ≠ some (Fig.fig b) :=
  C2_hidden_group_skipped dataC2 lpC2 [Fig.placeholder] 0 rfl (by decide) rfl

/-- C3 — the axis-range mode of a visible group, from its `groups_ranges`
entry `[low, high]`: both present → fixed range with autorange disabled
(`False`); both absent → full autorange (`True`); only the lower bound
present → plotly `autorange="max"`, which recomputes the maximum while the
minimum stays anchored at `range[0]` (autorange anchored at minimum); only
the upper bound present → plotly `autorange="min"`, recomputing the minimum
while the maximum stays anchored (autorange anchored at maximum); and a
spec with no `groups_ranges` key at all → full autorange with no explicit
bounds. -/
theorem C3_axis_range_policy (lp : LimPlot) (i : Nat) :
    (∀ rs lo hi, lp.groups_ranges = some rs → rs.get? i = some (some lo, some hi) →
        axisRange lp i = .ok ((some lo, some hi), AutoRange.fls)) ∧
    (∀ rs, lp.groups_ranges = some rs → rs.get? i = some (none, none) →
        axisRange lp i = .ok ((none, none), AutoRange.tru)) ∧
    (∀ rs lo, lp.groups_ranges = some rs → rs.get? i = some (some lo, none) →
        axisRange lp i = .ok ((some lo, none), AutoRange.max)) ∧
    (∀ rs hi, lp.groups_ranges = some rs → rs.get? i = some (none, some hi) →
        axisRange lp i = .ok ((none, some hi), AutoRange.min)) ∧
    (lp.groups_ranges = none → axisRange lp i = .ok ((none, none), AutoRange.tru)) := by
  refine ⟨?_, ?_, ?_, ?_, ?_⟩
  · intro rs lo hi h1 h2
    rw [List.get?_eq_getElem?] at h2
    simp [axisRange, h1, h2]
  · intro rs h1 h2
    rw [List.get?_eq_getElem?] at h2
    simp [axisRange, h1, h2]
  · intro rs lo h1 h2
    rw [List.get?_eq_getElem?] at h2
    simp [axisRange, h1, h2]
  · intro rs hi h1 h2
    rw [List.get?_eq_getElem?] at h2
    simp [axisRange, h1, h2]
  · intro h1; simp [axisRange, h1]

def lpC3 : LimPlot :=
  ⟨"L", [["a"], ["a"], ["a"], ["a"]], none, none,
   some [(some 0, some 100), (none, none), (some 0, none), (none, some 100)], none⟩

def lpC3b : LimPlot := ⟨"L", [["a"]], none, none, none, none⟩

theorem C3_witness :
    axisRange lpC3 0 = .ok ((some 0, some 100), AutoRange.fls) ∧
    axisRange lpC3 1 = .ok ((none, none), AutoRange.tru) ∧
    axisRange lpC3 2 = .ok ((some 0, none), AutoRange.max) ∧
    axisRange lpC3 3 = .ok ((none, some 100), AutoRange.min) ∧
    axisRange lpC3b 0 = .ok ((none, none), AutoRange.tru) :=
  ⟨(C3_axis_range_policy lpC3 0).1 _ 0 100 rfl rfl,
   (C3_axis_range_policy lpC3 1).2.1 _ rfl rfl,
   (C3_axis_range_policy lpC3 2).2.2.1 _ 0 rfl rfl,
   (C3_axis_range_policy lpC3 3).2.2.2.1 _ 100 rfl rfl,
   (C3_axis_range_policy lpC3b 0).2.2.2.2 rfl⟩

def data7 : DataFrame :=
  ⟨["date", "val"],
   [[Cell.date 1, Cell.flo (.val 10)], [Cell.date 2, Cell.flo (.val 10)],
    [Cell.date 3, Cell.flo (.val 10)], [Cell.date 4, Cell.flo (.val 10)],
    [Cell.date 5, Cell.flo (.val 100)]]⟩

def lp7 : LimPlot :=
  ⟨"L", [["val"]], none, some [(LimEntry.str "relative_median", LimEntry.num 20)], none, none⟩

def bundle7 : Bundle :=
  ⟨[("val", [(Cell.date 1, Cell.flo (.val 10)), (Cell.date 2, Cell.flo (.val 10)),
             (Cell.date 3, Cell.flo (.val 10)), (Cell.date 4, Cell.flo (.val 10)),
             (Cell.date 5, Cell.flo (.val 100))])],
   [(PyFloat.val 8, some "median +/- 20%", "bottom"), (PyFloat.val 12, some "", "top")],
   [("val", [(Cell.date 5, Cell.flo (.val 100))])],
   (none, none), AutoRange.tru⟩

/-- C7 — for a single-channel group with values `[10, 10, 10, 10, 100]` and
the tag `(relative_median, 20)`, the reference is the median of all samples
but the last (10), the computed bounds are `[8, 12]`, and the final sample
100, strictly above the upper bound, stays in the main series and is
duplicated into the out-of-limit trace. -/
theorem C7_relative_median_example :
    generateFigureList data7 lp7 = .ok [Fig.fig bundle7] ∧
    bundle7.thresholds.map (fun t => t.1) = [PyFloat.val 8, PyFloat.val 12] ∧
    (Cell.date 5, Cell.flo (PyFloat.val 100)) ∈ (bundle7.series.map Prod.snd).flatten ∧
    bundle7.outliers = [("val", [(Cell.date 5, Cell.flo (PyFloat.val 100))])] :=
  ⟨by with_unfolding_all rfl, by decide, by decide, by decide⟩

/-- One parameter-set record as kept by `load_paramset_decimarks`: its
label and output decimal mark. -/
structure Paramset where
  label : String
  decimal_mark : Char
deriving DecidableEq, Repr

/-- One automation-template configuration record.  `Option` fields model
dict keys that may be absent from the YAML record (a missing key raises
`KeyError` where accessed outside a handler). -/
structure AutoTemp where
  label : String
  path_output : String
  active : Bool
  import_only : Option Bool
  paramset_label : Option String
  quicktemp_label : Option String
  limits_and_plot_label : String
deriving DecidableEq, Repr

/-- The per-template record `get_data` constructs (the `Template`
dataclass).  The `limits_and_plot_template` field is first assigned the
label string and then overwritten with the resolved dict before the record
is stored; the embedding keeps the final state.  `status` is the
placeholder enum, never set beyond 0. -/
structure Template where
  label : String
  limits_and_plot_template : LimPlot
  data : DataFrame
  newest_date : String
  days_since : Int
  status : Nat
deriving DecidableEq, Repr

/-- A Python dict with string keys: insertion-ordered association list
with unique keys. -/
abbrev ModDict (α : Type) : Type := List (String × α)

/-- Python `key in dict`. -/
def hasKey {α : Type} (d : ModDict α) (k : String) : Bool :=
  d.any (fun p => p.1 == k)

/-- Python `dict[key]` as an option. -/
def dictLookup? {α : Type} (d : ModDict α) (k : String) : Option α :=
  (d.find? (fun p => p.1 == k)).map Prod.snd

/-- Python `dict[key]` where a missing key is an uncaught `KeyError`. -/
def dictGetE {α : Type} (d : ModDict α) (k : String) (err : String) : Except String α :=
  match dictLookup? d k with
  | some v => .ok v
  | none => .error err

/-- Python `if key not in dict: dict[key] = v` (insertion appends). -/
def dictSetDefault {α : Type} (d : ModDict α) (k : String) (v : α) : ModDict α :=
  if hasKey d k then d else d ++ [(k, v)]

/-- Python `dict[key].append(t)`; dict keys are unique, so updating every
entry with that key updates the one entry (a missing key cannot occur at
the call sites: the key was ensured beforehand). -/
def dictAppend {α : Type} (d : ModDict (List α)) (k : String) (t : α) : ModDict (List α) :=
  d.map (fun p => if p.1 == k then (p.1, p.2 ++ [t]) else p)

/-- The `try: if temp['import_only'] ... except KeyError: pass` gate
(imageQC_dash.py lines 151-160): a `KeyError` at any of the three lookups
skips the remaining checks and leaves `proceed = True`. -/
def checkFlags (t : AutoTemp) : Bool :=
  match t.import_only with
  | none => true
  | some io =>
    if io then false
    else
      match t.paramset_label with
      | none => true
      | some pl =>
        if pl = "" then false
        else
          match t.quicktemp_label with
          | none => true
          | some ql => ql ≠ ""

/-- The `create_empty` resolution of the limits/plot spec (imageQC_dash.py
lines 203-212): a nonempty label found in the modality's `lim_labels` list
selects the parallel entry of the collection; an empty or unmatched label
synthesizes the default spec from the table's own channel columns.
`limLabels` is the parallel label list of `limList`, so the index is in
range whenever it is found. -/
def resolveLimSpec (limLabel : String) (limLabels : List String)
    (limList : List LimPlot) (df : DataFrame) : LimPlot :=
  if limLabel ≠ "" then
    match idxOf? limLabel limLabels with
    | some i => limList.getD i (defaultSpec df)
    | none => defaultSpec df
  else defaultSpec df

/-- `dropna(how='all')`: keep exactly the rows with at least one present
value (a row is dropped only when every cell, the timestamp included, is
NaN/NaT). -/
def dropnaAll (rows : List (List Cell)) : List (List Cell) :=
  rows.filter (fun r => !(r.all (fun c => isNa c)))

/-- `sort_values(by=[date_header])`: sort rows by the date column (column
0, the first column's name). -/
def sortByDate (rows : List (List Cell)) : List (List Cell) :=
  sortLe (fun a b => cellLe (a.getD 0 Cell.naT) (b.getD 0 Cell.naT)) rows

/-- The per-modality context threaded through the template loop of
`get_data`. -/
structure ModCtx where
  files : String → FileInput
  today : Nat
  autoNo : Nat
  paramLabels : List String
  decimarks : List Char
  limLabels : List String
  limList : List LimPlot
  mod : String

/-- Processing of a single template configuration (imageQC_dash.py lines
146-214, minus the dict append): `ok none` when the template contributes
nothing (ineligible, unreadable or unparsable source), `ok (some t)` with
the constructed record, `error` when an uncaught exception aborts the whole
pass.  For a primary template (`autoNo = 0`) the decimal mark is found by
`param_labels.index(temp['paramset_label'])` — a missing key is an uncaught
`KeyError` and an unmatched label an uncaught `ValueError`; vendor
templates use the canonical first CT decimal mark (`decimarks[0]`).  The
`decimarks` list is parallel to `paramLabels`, so a found index is in
range.  After a successful parse the rows are filtered (`dropna`), sorted
by date, freshness is derived from the last date cell (a non-date last
cell gives the `error` sentinel and `days_since = -1000`), and the
limits/plot spec is resolved. -/
def freshness (today : Nat) (rows : List (List Cell)) : String × Int :=
  match (rows.map (fun r => r.getD 0 Cell.naT)).getLast? with
  | some (Cell.date dd) => (toString dd, (today : Int) - (dd : Int))
  | _ => ("error", -1000)

/-- The record construction on the success path of the template loop
(imageQC_dash.py lines 181-213): filter the rows (`dropna(how='all')`),
sort by the date column, derive freshness from the last date cell, and
resolve the limits/plot spec from the prepared table. -/
def mkTemplate (ctx : ModCtx) (temp : AutoTemp) (df : DataFrame) : Template :=
  ⟨temp.label,
   resolveLimSpec temp.limits_and_plot_label ctx.limLabels ctx.limList
     ⟨df.columns, sortByDate (dropnaAll df.rows)⟩,
   ⟨df.columns, sortByDate (dropnaAll df.rows)⟩,
   (freshness ctx.today (sortByDate (dropnaAll df.rows))).1,
   (freshness ctx.today (sortByDate (dropnaAll df.rows))).2,
   0⟩

def buildTemplate (ctx : ModCtx) (temp : AutoTemp) : Except String (Option Template) :=
  if temp.label ≠ "" ∧ temp.path_output ≠ "" ∧ temp.active = true then
    if checkFlags temp then
      match (if ctx.autoNo = 0 then
               match temp.paramset_label with
               | none => Except.error "KeyError: paramset_label"
               | some pl =>
                 match idxOf? pl ctx.paramLabels with
                 | none => Except.error "ValueError: paramset_label not in param_labels"
                 | some idx =>
                   Except.ok (readCsv (ctx.files temp.path_output) (ctx.decimarks.getD idx '.'))
             else
               Except.ok (readCsv (ctx.files temp.path_output) (ctx.decimarks.getD 0 '.'))) with
      | .error e => .error e
      | .ok (proceed2, df?) =>
        if proceed2 then
          match df? with
          | none => .ok none
          | some df =>
            match df.columns.head? with
            | none => .error "IndexError: columns"
            | some _ => .ok (some (mkTemplate ctx temp df))
        else .ok none
    else .ok none
  else .ok none

/-- The template loop of one modality: successfully built templates are
appended to the modality's entry in declaration order. -/
def processTemps (ctx : ModCtx) : List AutoTemp → ModDict (List Template) →
    Except String (ModDict (List Template))
  | [], d => .ok d
  | t :: rest, d =>
    match buildTemplate ctx t with
    | .error e => .error e
    | .ok none => processTemps ctx rest d
    | .ok (some tp) => processTemps ctx rest (dictAppend d ctx.mod tp)

/-- The per-modality setup of `get_data` (imageQC_dash.py lines 128-145):
ensure the modality key exists, read the limits/plot labels (`KeyError`
leaves them empty), and resolve the label/decimal-mark lists — for primary
non-SR modalities from `paramsets[mod]` (a missing modality is an uncaught
`KeyError`), otherwise the single first CT decimal mark (missing CT key is
an uncaught `KeyError`, an empty CT list an uncaught `IndexError`). -/
def processModality (files : String → FileInput) (today : Nat)
    (paramsets : ModDict (List Paramset)) (limPlots : ModDict (List LimPlot))
    (autoNo : Nat) (mod : String) (tlist : List AutoTemp)
    (d : ModDict (List Template)) : Except String (ModDict (List Template)) :=
  match (if autoNo = 0 ∧ mod ≠ "SR" then
           match dictGetE paramsets mod "KeyError: paramsets" with
           | .error e => Except.error e
           | .ok ps => Except.ok (ps.map (fun p => p.label), ps.map (fun p => p.decimal_mark))
         else
           match dictGetE paramsets "CT" "KeyError: paramsets CT" with
           | .error e => Except.error e
           | .ok ct =>
             match ct.head? with
             | none => Except.error "IndexError: paramsets CT empty"
             | some p0 => Except.ok (([] : List String), [p0.decimal_mark])) with
  | .error e => .error e
  | .ok (paramLabels, decimarks) =>
    processTemps
      ⟨files, today, autoNo, paramLabels, decimarks,
       ((dictLookup? limPlots mod).getD []).map (fun lp => lp.label),
       (dictLookup? limPlots mod).getD [], mod⟩
      tlist (dictSetDefault d mod [])

/-- The modality loop over one template collection (primary or vendor). -/
def processCollection (files : String → FileInput) (today : Nat)
    (paramsets : ModDict (List Paramset)) (limPlots : ModDict (List LimPlot))
    (autoNo : Nat) : ModDict (List AutoTemp) → ModDict (List Template) →
      Except String (ModDict (List Template))
  | [], d => .ok d
  | (mod, tlist) :: rest, d =>
    match processModality files today paramsets limPlots autoNo mod tlist d with
    | .error e => .error e
    | .ok d' => processCollection files today paramsets limPlots autoNo rest d'

/-- The filter step of `modality_dict.pop(key)`: dict keys are unique, so
removing the entry with that key is removing every entry with that key. -/
def popStep (cond : Nat → Bool) (key : Nat → String)
    (acc : ModDict (List Template)) (i : Nat) : ModDict (List Template) :=
  if cond i then acc.filter (fun p => !(p.1 == key i)) else acc

/-- The empty-modality pruning loop (imageQC_dash.py lines 219-225): entry
lengths and keys are snapshotted first, then `for i in range(len(...))`
pops the key at original position `len - (i+1)` whenever its snapshotted
list was empty. -/
def pruneEmpty (d : ModDict (List Template)) : ModDict (List Template) :=
  let lens := d.map (fun p => p.2.length)
  let mods := d.map (fun p => p.1)
  (List.range d.length).foldl
    (popStep (fun i => lens.getD (d.length - (i + 1)) 1 == 0)
             (fun i => mods.getD (d.length - (i + 1)) "")) d

/-- The loaded configuration state `get_data` runs on: the two template
collections, the parameter-set label/decimal-mark collection, the
limits/plot collection, the readable files, and the current date (as the
abstract day ordinal used by the freshness subtraction). -/
structure GetDataInput where
  auto_templates : ModDict (List AutoTemp)
  auto_vendor_templates : ModDict (List AutoTemp)
  paramsets : ModDict (List Paramset)
  lim_plots : ModDict (List LimPlot)
  files : String → FileInput
  today : Nat

/-- Embeds `get_data` (imageQC_dash.py lines 102-226): the limits/plot
collection is loaded only when some template collection is nonempty, the
primary collection is processed before the vendor collection, and finally
modalities whose template list stayed empty are pruned. -/
def limPlotsUsed (inp : GetDataInput) : ModDict (List LimPlot) :=
  if inp.auto_templates = [] ∧ inp.auto_vendor_templates = [] then []
  else inp.lim_plots

def getData (inp : GetDataInput) : Except String (ModDict (List Template)) :=
  match processCollection inp.files inp.today inp.paramsets (limPlotsUsed inp) 0
      inp.auto_templates [] with
  | .error e => .error e
  | .ok d1 =>
    match processCollection inp.files inp.today inp.paramsets (limPlotsUsed inp) 1
        inp.auto_vendor_templates d1 with
    | .error e => .error e
    | .ok d2 => .ok (pruneEmpty d2)

theorem mem_popStep_fold (cond : Nat → Bool) (key : Nat → String) :
    ∀ (idxs : List Nat) (acc : ModDict (List Template)) (p : String × List Template),
      p ∈ List.foldl (popStep cond key) acc idxs → p ∈ acc := by
  intro idxs
  induction idxs with
  | nil => intro acc p h; simpa using h
  | cons a rest ih =>
    intro acc p h
    have h1 : p ∈ popStep cond key acc a := ih (popStep cond key acc a) p h
    unfold popStep at h1
    split at h1
    · exact List.mem_of_mem_filter h1
    · exact h1

theorem fold_no_key (cond : Nat → Bool) (key : Nat → String) :
    ∀ (idxs : List Nat) (acc : ModDict (List Template)) (i : Nat),
      i ∈ idxs → cond i = true →
      ∀ p ∈ List.foldl (popStep cond key) acc idxs, p.1 ≠ key i := by
  intro idxs
  induction idxs with
  | nil => intro acc i hi; simp at hi
  | cons a rest ih =>
    intro acc i hi hc p hp
    rcases List.mem_cons.mp hi with heq | hrest
    · subst heq
      have h1 : p ∈ popStep cond key acc i :=
        mem_popStep_fold cond key rest (popStep cond key acc i) p hp
      unfold popStep at h1
      rw [if_pos hc] at h1
      have := List.of_mem_filter h1
      simpa using this
    · exact ih (popStep cond key acc a) i hrest hc p hp

theorem pruneEmpty_no_empty (d : ModDict (List Template)) :
    ∀ p ∈ pruneEmpty d, p.2 ≠ [] := by
  intro p hp hnil
  have hpd : p ∈ d := mem_popStep_fold _ _ _ d p hp
  obtain ⟨j, hj, hget⟩ := List.mem_iff_getElem.mp hpd
  have hjlt : j + 1 ≤ d.length := hj
  have hidx : d.length - (d.length - (j + 1) + 1) = j := by omega
  have hlen : (d.map (fun p => p.2.length)).getD j 1 = 0 := by
    rw [List.getD_eq_getElem?_getD, List.getElem?_map]
    rw [List.getElem?_eq_getElem hj, hget]
    simp [hnil]
  have hkey : (d.map (fun p => p.1)).getD j "" = p.1 := by
    rw [List.getD_eq_getElem?_getD, List.getElem?_map]
    rw [List.getElem?_eq_getElem hj, hget]
    rfl
  have hmem : d.length - (j + 1) ∈ List.range d.length := by
    rw [List.mem_range]; omega
  have hcond : ((fun i => (d.map (fun p => p.2.length)).getD (d.length - (i + 1)) 1 == 0)
      (d.length - (j + 1))) = true := by
    show ((d.map (fun p => p.2.length)).getD (d.length - (d.length - (j + 1) + 1)) 1 == 0) = true
    rw [hidx, hlen]
    rfl
  have := fold_no_key
    (fun i => (d.map (fun p => p.2.length)).getD (d.length - (i + 1)) 1 == 0)
    (fun i => (d.map (fun p => p.1)).getD (d.length - (i + 1)) "")
    (List.range d.length) d (d.length - (j + 1)) hmem hcond p hp
  have hthis : p.1 ≠ (d.map (fun p => p.1)).getD (d.length - (d.length - (j + 1) + 1)) "" := this
  rw [hidx, hkey] at hthis
  exact hthis rfl

/-- C6 — whenever `get_data` returns, no modality key of the returned
collection maps to an empty template list: the final pruning loop removes
every modality whose every template failed eligibility or parsing. -/
theorem C6_no_empty_modalities (inp : GetDataInput) (d : ModDict (List Template))
    (h : getData inp = .ok d) :
    ∀ mod tlist, (mod, tlist) ∈ d → tlist ≠ [] := by
  intro mod tlist hmem
  unfold getData at h
  split at h
  · cases h
  · split at h
    · cases h
    · cases h
      exact pruneEmpty_no_empty _ (mod, tlist) hmem

def wTemp6 : Template :=
  ⟨"t1", ⟨"", [["v"]], none, none, none, none⟩,
   ⟨["d", "v"],
    [[Cell.date 20240101, Cell.flo (.val 5)], [Cell.date 20240102, Cell.flo (.val 6)]]⟩,
   "20240102", 8, 0⟩

def wInp6 : GetDataInput :=
  ⟨[("CT", [⟨"t1", "out", true, some false, some "p1", some "q1", ""⟩])],
   [],
   [("CT", [⟨"p1", '.'⟩])],
   [],
   fun _ => FileInput.content [["d", "v"], ["1.1.2024", "5"], ["2.1.2024", "6"]],
   20240110⟩

theorem C6_witness : ([wTemp6] : List Template) ≠ [] :=
  C6_no_empty_modalities wInp6 [("CT", [wTemp6])] (by with_unfolding_all rfl)
    "CT" [wTemp6] (List.mem_singleton.mpr rfl)

theorem rowOk_of_mem_prepared (rows : List (List Cell)) (r : List Cell)
    (h : r ∈ sortByDate (dropnaAll rows)) : ∃ c ∈ r, isNa c = false := by
  rw [sortByDate, mem_sortLe, dropnaAll] at h
  have h2 := List.of_mem_filter h
  simp only [Bool.not_eq_true'] at h2
  rw [List.all_eq_false] at h2
  obtain ⟨c, hc, hcp⟩ := h2
  exact ⟨c, hc, by simpa using hcp⟩

theorem mkTemplate_rows (ctx : ModCtx) (temp : AutoTemp) (df : DataFrame) :
    ∀ r ∈ (mkTemplate ctx temp df).data.rows, ∃ c ∈ r, isNa c = false := by
  intro r hr
  exact rowOk_of_mem_prepared df.rows r hr

theorem buildTemplate_ok_rows (ctx : ModCtx) (temp : AutoTemp) (t : Template)
    (h : buildTemplate ctx temp = .ok (some t)) :
    ∀ r ∈ t.data.rows, ∃ c ∈ r, isNa c = false := by
  unfold buildTemplate at h
  split at h
  · split at h
    · split at h
      · exact absurd h (by simp)
      · split at h
        · split at h
          · exact absurd h (by simp)
          · split at h
            · exact absurd h (by simp)
            · simp only [Except.ok.injEq, Option.some.injEq] at h
              subst h
              exact mkTemplate_rows _ _ _
        · exact absurd h (by simp)
    · exact absurd h (by simp)
  · exact absurd h (by simp)

/-- The row property every template of the aggregate satisfies, dict-wide. -/
def DictRowsOk (d : ModDict (List Template)) : Prop :=
  ∀ p ∈ d, ∀ t ∈ p.2, ∀ r ∈ t.data.rows, ∃ c ∈ r, isNa c = false

theorem dictSetDefault_rowsOk (d : ModDict (List Template)) (k : String)
    (h : DictRowsOk d) : DictRowsOk (dictSetDefault d k []) := by
  intro p hp
  unfold dictSetDefault at hp
  split at hp
  · exact h p hp
  · rcases List.mem_append.mp hp with h1 | h1
    · exact h p h1
    · rw [List.mem_singleton] at h1
      subst h1
      intro t ht
      simp at ht

theorem dictAppend_rowsOk (d : ModDict (List Template)) (k : String) (tp : Template)
    (hd : DictRowsOk d) (htp : ∀ r ∈ tp.data.rows, ∃ c ∈ r, isNa c = false) :
    DictRowsOk (dictAppend d k tp) := by
  intro p hp t ht
  unfold dictAppend at hp
  rcases List.mem_map.mp hp with ⟨q, hq, hfq⟩
  by_cases hk : (q.1 == k) = true
  · rw [if_pos hk] at hfq
    subst hfq
    rcases List.mem_append.mp ht with h1 | h1
    · exact hd q hq t h1
    · rw [List.mem_singleton] at h1
      subst h1
      exact htp
  · rw [if_neg hk] at hfq
    subst hfq
    exact hd q hq t ht

theorem processTemps_rowsOk (ctx : ModCtx) :
    ∀ (ts : List AutoTemp) (d d' : ModDict (List Template)),
      processTemps ctx ts d = .ok d' → DictRowsOk d → DictRowsOk d' := by
  intro ts
  induction ts with
  | nil =>
    intro d d' h hd
    unfold processTemps at h
    cases h
    exact hd
  | cons t rest ih =>
    intro d d' h hd
    unfold processTemps at h
    split at h
    · exact absurd h (by simp)
    · exact ih d d' h hd
    · rename_i tp heq
      exact ih _ d' h (dictAppend_rowsOk d ctx.mod tp hd (buildTemplate_ok_rows ctx t tp heq))

theorem processModality_rowsOk (files : String → FileInput) (today : Nat)
    (paramsets : ModDict (List Paramset)) (limPlots : ModDict (List LimPlot))
    (autoNo : Nat) (mod : String) (tlist : List AutoTemp)
    (d d' : ModDict (List Template))
    (h : processModality files today paramsets limPlots autoNo mod tlist d = .ok d')
    (hd : DictRowsOk d) : DictRowsOk d' := by
  unfold processModality at h
  split at h
  · exact absurd h (by simp)
  · exact processTemps_rowsOk _ tlist _ d' h (dictSetDefault_rowsOk d mod hd)

theorem processCollection_rowsOk (files : String → FileInput) (today : Nat)
    (paramsets : ModDict (List Paramset)) (limPlots : ModDict (List LimPlot))
    (autoNo : Nat) :
    ∀ (coll : ModDict (List AutoTemp)) (d d' : ModDict (List Template)),
      processCollection files today paramsets limPlots autoNo coll d = .ok d' →
      DictRowsOk d → DictRowsOk d' := by
  intro coll
  induction coll with
  | nil =>
    intro d d' h hd
    unfold processCollection at h
    cases h
    exact hd
  | cons entry rest ih =>
    intro d d' h hd
    unfold processCollection at h
    split at h
    · exact absurd h (by simp)
    · rename_i dmid heq
      exact ih dmid d' h
        (processModality_rowsOk files today paramsets limPlots autoNo entry.1 entry.2 d dmid heq hd)

/-- C5 (amended) — the row filtering of the aggregation pass is
`dropna(how='all')`: a row is dropped exactly when every cell, the
timestamp included, is absent.  Hence every row of every constructed
Template's table keeps at least one present cell — but a row whose
channels are all absent survives when its timestamp is present (see the
counterexample), and a row with an empty timestamp survives when some
channel is present. -/
theorem C5_rows_after_filtering (inp : GetDataInput) (d : ModDict (List Template))
    (h : getData inp = .ok d) :
    ∀ mod tlist, (mod, tlist) ∈ d → ∀ t ∈ tlist, ∀ r ∈ t.data.rows,
      ∃ c ∈ r, isNa c = false := by
  intro mod tlist hmem t ht r hr
  unfold getData at h
  split at h
  · cases h
  · rename_i d1 heq1
    split at h
    · cases h
    · rename_i d2 heq2
      cases h
      have hd1 : DictRowsOk d1 :=
        processCollection_rowsOk _ _ _ _ 0 _ [] d1 heq1 (by intro p hp; simp at hp)
      have hd2 : DictRowsOk d2 :=
        processCollection_rowsOk _ _ _ _ 1 _ d1 d2 heq2 hd1
      have hmem2 : (mod, tlist) ∈ d2 := mem_popStep_fold _ _ _ d2 (mod, tlist) hmem
      exact hd2 (mod, tlist) hmem2 t ht r hr

def cTemp5 : Template :=
  ⟨"t1", ⟨"", [["v"]], none, none, none, none⟩,
   ⟨["d", "v"],
    [[Cell.date 20240101, Cell.flo (.val 5)],
     [Cell.date 20240102, Cell.flo PyFloat.nan],
     [Cell.date 20240103, Cell.flo (.val 7)]]⟩,
   "20240103", 7, 0⟩

def cInp5 : GetDataInput :=
  ⟨[("CT", [⟨"t1", "out", true, some false, some "p1", some "q1", ""⟩])],
   [],
   [("CT", [⟨"p1", '.'⟩])],
   [],
   fun _ => FileInput.content
     [["d", "v"], ["1.1.2024", "5"], ["2.1.2024", ""], ["3.1.2024", "7"]],
   20240110⟩

/-- C5 counterexample — a source row whose every channel value is absent
but whose timestamp parses (`2.1.2024` with an empty value field) is NOT
dropped by `dropna(how='all')`: it survives into the constructed Template's
table with its single channel cell NaN, refuting "every row whose channel
values are all absent has been dropped" (and hence the claimed invariant). -/
theorem C5_counterexample :
    getData cInp5 = .ok [("CT", [cTemp5])] ∧
    [Cell.date 20240102, Cell.flo PyFloat.nan] ∈ cTemp5.data.rows ∧
    isNa (Cell.flo PyFloat.nan) = true :=
  ⟨by with_unfolding_all rfl,
   List.mem_cons_of_mem _ (List.mem_cons_self _ _),
   rfl⟩

theorem C5_witness :
    ∃ c ∈ [Cell.date 20240102, Cell.flo PyFloat.nan], isNa c = false :=
  C5_rows_after_filtering cInp5 [("CT", [cTemp5])] (by with_unfolding_all rfl)
    "CT" [cTemp5] (List.mem_singleton.mpr rfl) cTemp5 (List.mem_singleton.mpr rfl)
    [Cell.date 20240102, Cell.flo PyFloat.nan]
    (List.mem_cons_of_mem _ (List.mem_cons_self _ _))

def cInp1 : GetDataInput :=
  ⟨[("CT", [⟨"t1", "out", true, some false, some "missing", some "q1", ""⟩])],
   [],
   [("CT", [⟨"other", '.'⟩])],
   [],
   fun _ => FileInput.content [["d", "v"], ["1.1.2024", "5"], ["2.1.2024", "6"]],
   20240110⟩

/-- C1 counterexample — a template whose declared parameter-set label
(`missing`) is not found in the modality's loaded parameter-set labels
(`other`) hits the unguarded `param_labels.index(...)` (imageQC_dash.py
line 168): the `ValueError` is caught nowhere in `get_data`, so the whole
aggregation pass aborts instead of skipping the template — refuting "never
causes the pass to raise or abort". -/
theorem C1_counterexample :
    getData cInp1 = .error "ValueError: paramset_label not in param_labels" := by
  with_unfolding_all rfl

/-- C1 (amended) — the two label mismatches behave differently.  A
limits/plot-group label that is empty or not found in the modality's
collection is resolved non-fatally: the default spec is synthesized from
the table's own channels.  A parameter-set label not found in the loaded
parameter-set labels, by contrast, makes the template processing of an
otherwise eligible primary template raise the uncaught lookup error,
aborting the pass. -/
theorem C1_label_mismatch :
    (∀ (limLabel : String) (limLabels : List String) (limList : List LimPlot)
        (df : DataFrame), limLabel ∉ limLabels →
        resolveLimSpec limLabel limLabels limList df = defaultSpec df) ∧
    (∀ (ctx : ModCtx) (temp : AutoTemp) (pl : String),
        ctx.autoNo = 0 →
        temp.label ≠ "" → temp.path_output ≠ "" → temp.active = true →
        checkFlags temp = true →
        temp.paramset_label = some pl → pl ∉ ctx.paramLabels →
        buildTemplate ctx temp = .error "ValueError: paramset_label not in param_labels") := by
  constructor
  · intro limLabel limLabels limList df hnot
    unfold resolveLimSpec
    by_cases hne : limLabel = ""
    · simp [hne]
    · simp [hne, idxOf?_eq_none limLabel limLabels hnot]
  · intro ctx temp pl hauto h1 h2 h3 hcf hps hnot
    unfold buildTemplate
    rw [if_pos ⟨h1, h2, h3⟩, if_pos hcf, if_pos hauto, hps]
    simp [idxOf?_eq_none pl ctx.paramLabels hnot]

def ctxW1 : ModCtx :=
  ⟨fun _ => FileInput.missing, 0, 0, ["A"], ['.'], [], [], "CT"⟩

def dfW1 : DataFrame := ⟨["d", "v"], []⟩

theorem C1_witness :
    resolveLimSpec "L" ["A"] [] dfW1 = defaultSpec dfW1 ∧
    buildTemplate ctxW1 ⟨"t1", "out", true, some false, some "missing", some "q1", ""⟩
      = .error "ValueError: paramset_label not in param_labels" :=
  ⟨C1_label_mismatch.1 "L" ["A"] [] dfW1 (by decide),
   C1_label_mismatch.2 ctxW1 ⟨"t1", "out", true, some false, some "missing", some "q1", ""⟩
     "missing" rfl (by decide) (by decide) rfl rfl rfl (by decide)⟩
